import Mathlib

/-!
Verification of the playback-tracking state machine in `src/scrobbler.rs`
(spotify-connect-scrobbler).

The Rust code is a manually polled futures state machine.  The embedding
models the `Scrobbler` struct field by field.  Each `BoxFuture` slot is
represented by whether it is armed (holds a real in-flight operation) or
holds `future::empty()` (which is never ready); polling an armed slot
yields an outcome supplied by an oracle that stands for the external
collaborators (the Last.fm backend and the metadata resolver).  The
`new_track_future` slot is special: the source always arms it with
`future::ok(())` (line 116), so an armed slot is deterministically ready
with success when polled.  Time is modelled in nanoseconds (the precision
of `std::time::Duration`); `Instant::now()` values are naturals supplied
to the functions that read the clock.
-/

namespace SpotifyScrobbler

abbrev SpotifyId := Nat

/-- Rust struct `ScrobblerConfig` (lines 11-17). -/
structure ScrobblerConfig where
  api_key : String
  api_secret : String
  username : String
  password : String
deriving DecidableEq

/-- The `rustfm_scrobble::Scrobble` payload: the (artist, track, album)
metadata triple built by `Scrobble::new(&artist, &track, &album)`. -/
structure Scrobble where
  artist : String
  track : String
  album : String
deriving DecidableEq

/-- Rust struct `ScrobbleError` (lines 36-39). -/
structure ScrobbleError where
  msg : String
deriving DecidableEq

/-- Constructor `ScrobbleError::new` (lines 43-47). -/
def ScrobbleError.new (msg : String) : ScrobbleError := ⟨msg⟩

/-- Outcome of one non-blocking poll of a future of item type `α` and
error type `ε` (the three arms matched in the source: `Ok(Async::Ready)`,
`Ok(Async::NotReady)`, `Err`). -/
inductive PollRes (α ε : Type) where
  | notReady
  | ready (a : α)
  | error (e : ε)
deriving DecidableEq

/-- The `Scrobbler` struct (lines 19-34).  The `session` field is an
opaque handle used only to issue resolver calls and is not part of the
state machine, so it is omitted.  Future slots: `auth_future`,
`new_track_future` and `now_playing_future` are either armed or
`future::empty()` (a `Bool`); `meta_fetch_future` records the track id the
in-flight fetch was started for (`none` = empty); `scrobble_future` is the
`Option` of the source, holding the submitted metadata payload. -/
structure Scrobbler where
  config : ScrobblerConfig
  current_track_id : Option SpotifyId
  current_track_start : Option Nat
  current_track_meta : Option Scrobble
  current_track_scrobbled : Bool
  auth_future : Bool
  new_track_future : Bool
  now_playing_future : Bool
  meta_fetch_future : Option SpotifyId
  scrobble_future : Option Scrobble
deriving DecidableEq

/-- Constructor `Scrobbler::new` (lines 53-71): every slot starts as
`future::empty()` except the authentication slot, which `start_auth()`
arms immediately. -/
def Scrobbler.new (config : ScrobblerConfig) : Scrobbler where
  config := config
  current_track_id := none
  current_track_start := none
  current_track_meta := none
  current_track_scrobbled := false
  auth_future := true
  new_track_future := false
  now_playing_future := false
  meta_fetch_future := none
  scrobble_future := none

/-- The playtime threshold compared against in `can_scrobble_track`:
`Duration::new(20, 0)`, i.e. 20 seconds, in nanoseconds. -/
def SCROBBLE_MIN_PLAY_NANOS : Nat := 20000000000

/-- Rust `can_scrobble_track` (lines 166-190).  `play_time` is
`start_time.elapsed()`, i.e. `now - start_time` (truncated subtraction
models the monotonic clock), and the comparison is the strict
`play_time > Duration::new(20, 0)` of line 182. -/
def can_scrobble_track (s : Scrobbler) (now : Nat) : Bool :=
  if s.current_track_scrobbled then
    false
  else
    match s.scrobble_future with
    | some _ => false
    | none =>
      match s.current_track_start with
      | some start_time => decide (now - start_time > SCROBBLE_MIN_PLAY_NANOS)
      | none => false

/-- Rust `start_scrobble` (lines 144-155): with metadata present the scrobble
slot is armed with (a clone of) the metadata payload; with no metadata the
slot is assigned `None` and an error is merely logged. -/
def start_scrobble (s : Scrobbler) : Scrobbler :=
  match s.current_track_meta with
  | some meta => { s with scrobble_future := some meta }
  | none => { s with scrobble_future := none }

/-- Rust `set_new_track` (lines 110-117).  The returned `future::ok(())` is
assigned to `new_track_future` by the single caller
(`update_current_track`, line 107); the assignment is folded in here. -/
def set_new_track (s : Scrobbler) (track_id : SpotifyId) (now : Nat) : Scrobbler :=
  { s with
    current_track_id := some track_id
    current_track_start := some now
    current_track_meta := none
    current_track_scrobbled := false
    new_track_future := true }

/-- Rust `update_current_track` (lines 84-108): with `force_new_track` unset
and an unchanged track id the call returns without effect; otherwise an
eligible outgoing track gets its scrobble started and the current track is
replaced. -/
def update_current_track (s : Scrobbler) (track_id : SpotifyId)
    (force_new_track : Bool) (now : Nat) : Scrobbler :=
  let new_track_detected :=
    match s.current_track_id with
    | none => true
    | some id => decide (id ≠ track_id)
  if force_new_track || new_track_detected then
    let s1 := if can_scrobble_track s now then start_scrobble s else s
    set_new_track s1 track_id now
  else
    s

/-- Result of one `poll` call (`Poll<Result<(), ()>, ()>`): the source
returns either `Ok(Async::NotReady)` (pending) or `Err(())` (fatal);
`Ok(Async::Ready(..))` is never produced. -/
inductive PollOut where
  | pending
  | fatal
deriving DecidableEq

/-- Poll outcomes, one per slot that wraps a collaborator call, supplied
by the environment for one `poll` call.  The outcome is only consulted
when the corresponding slot is armed. -/
structure PollOracle where
  auth : PollRes Unit String
  scrobble : PollRes Unit ScrobbleError
  meta_fetch : PollRes Scrobble ScrobbleError
  now_playing : PollRes Unit ScrobbleError
deriving DecidableEq

/-- Polling a Bool-armed slot: `future::empty()` is never ready. -/
def pollSlot {α ε : Type} (armed : Bool) (r : PollRes α ε) : PollRes α ε :=
  if armed then r else .notReady

/-- Polling an Option-armed slot: `future::empty()` is never ready. -/
def pollOptSlot {α ε β : Type} (slot : Option β) (r : PollRes α ε) : PollRes α ε :=
  match slot with
  | some _ => r
  | none => .notReady

/-- Rust `poll`, final block (lines 279-290): poll `now_playing_future`; on
success clear the slot; on error return `Err`; then return
`Ok(Async::NotReady)` (line 292). -/
def poll_now_playing_stage (s : Scrobbler) (o : PollOracle) : PollOut × Scrobbler :=
  match pollSlot s.now_playing_future o.now_playing with
  | .ready _ => (.pending, { s with now_playing_future := false })
  | .notReady => (.pending, s)
  | .error _ => (.fatal, s)

/-- Rust `poll`, metadata block (lines 264-277): on success clear the fetch
slot, arm the now-playing slot (`send_now_playing`), and store the triple
into `current_track_meta`; on error return `Err`. -/
def poll_meta_stage (s : Scrobbler) (o : PollOracle) : PollOut × Scrobbler :=
  match pollOptSlot s.meta_fetch_future o.meta_fetch with
  | .ready track =>
      poll_now_playing_stage
        { s with
          meta_fetch_future := none
          now_playing_future := true
          current_track_meta := some track } o
  | .notReady => poll_now_playing_stage s o
  | .error _ => (.fatal, s)

/-- Rust `poll`, new-track block (lines 241-262): an armed slot is
`future::ok(())` and hence deterministically ready; on that success the
slot is cleared, `current_track_scrobbled` is reset to `false`, and a
metadata fetch for the current track id (if any) is started.  The `Err`
arm of the source is unreachable because `future::ok` never fails. -/
def poll_new_track_stage (s : Scrobbler) (o : PollOracle) : PollOut × Scrobbler :=
  if s.new_track_future then
    let s1 := { s with new_track_future := false, current_track_scrobbled := false }
    match s1.current_track_id with
    | some track_id => poll_meta_stage { s1 with meta_fetch_future := some track_id } o
    | none => poll_meta_stage s1 o
  else
    poll_meta_stage s o

/-- Rust `poll`, eligibility plus scrobble block (lines 213-239): start a
scrobble if the current track qualifies, then poll the scrobble slot.  A
not-ready scrobble future returns `Ok(Async::NotReady)` for the whole
call (line 225); success clears the slot and marks the track scrobbled;
error returns `Err`. -/
def poll_scrobble_stage (s : Scrobbler) (now : Nat) (o : PollOracle) : PollOut × Scrobbler :=
  let s1 := if can_scrobble_track s now then start_scrobble s else s
  match s1.scrobble_future with
  | some _ =>
    match o.scrobble with
    | .ready _ =>
        poll_new_track_stage
          { s1 with scrobble_future := none, current_track_scrobbled := true } o
    | .notReady => (.pending, s1)
    | .error _ => (.fatal, s1)
  | none => poll_new_track_stage s1 o

/-- Rust `poll` (lines 198-293), the advance entry point of the spec: the five
slots in priority order.  Authentication first (lines 200-211): success
clears the slot, error returns `Err` at once. -/
def poll (s : Scrobbler) (now : Nat) (o : PollOracle) : PollOut × Scrobbler :=
  match pollSlot s.auth_future o.auth with
  | .ready _ => poll_scrobble_stage { s with auth_future := false } now o
  | .notReady => poll_scrobble_stage s now o
  | .error _ => (.fatal, s)

/-- Iterated `poll` calls: one clock reading and one oracle per call. -/
def poll_run (s : Scrobbler) (steps : List (Nat × PollOracle)) : Scrobbler :=
  match steps with
  | [] => s
  | (now, o) :: rest => poll_run (poll s now o).2 rest

/-- The track record returned by `Track::get`: name, artist id list,
album id (the fields read by `get_track_meta`). -/
structure TrackRec where
  name : String
  artists : List SpotifyId
  album : SpotifyId
deriving DecidableEq

/-- The artist record returned by `Artist::get` (only `name` is read). -/
structure ArtistRec where
  name : String
deriving DecidableEq

/-- The album record returned by `Album::get` (only `name` is read). -/
structure AlbumRec where
  name : String
deriving DecidableEq

/-- The metadata resolver interface (`Track::get`, `Artist::get`,
`Album::get`), each call either succeeding or failing with an error whose
`Debug` rendering is the given string. -/
structure Resolver where
  resolve_track : SpotifyId → Except String TrackRec
  resolve_artist : SpotifyId → Except String ArtistRec
  resolve_album : SpotifyId → Except String AlbumRec

/-- Outcome of driving the `get_track_meta` future chain to completion:
either the combined metadata triple, a `ScrobbleError` produced by the
`map_err` stage, or a panic (the `.expect("No artists")` of line 124,
which aborts instead of flowing into `map_err`). -/
inductive MetaResult where
  | ok (s : Scrobble)
  | fetchError (e : ScrobbleError)
  | aborted (msg : String)
deriving DecidableEq

/-- Whether a `MetaResult` is the fetch-failure signal. -/
def MetaResult.isFailure : MetaResult → Bool
  | .fetchError _ => true
  | _ => false

/-- Rust `get_track_meta` (lines 119-133) as a function of the resolver
responses.  The chain: `Track::get`, then `*track.artists.first().expect("No artists")`
and `Artist::get`, then `Album::get`, with `map_err` wrapping any resolver
error into `ScrobbleError::new(format!("{:?}", err))`, and finally
`Scrobble::new(&artist, &track, &album)`.  The `expect` call panics when
the artist list is empty; that panic propagates out of the poll instead of
reaching `map_err`. -/
def get_track_meta (r : Resolver) (track_id : SpotifyId) : MetaResult :=
  match r.resolve_track track_id with
  | .error err => .fetchError (ScrobbleError.new err)
  | .ok track =>
    match track.artists.head? with
    | none => .aborted "No artists"
    | some artist_id =>
      match r.resolve_artist artist_id with
      | .error err => .fetchError (ScrobbleError.new err)
      | .ok artist =>
        match r.resolve_album track.album with
        | .error err => .fetchError (ScrobbleError.new err)
        | .ok album =>
            .ok { artist := artist.name, track := track.name, album := album.name }

/-- States reachable from construction under any interleaving of `poll`
calls and track-change events. -/
inductive Reach : Scrobbler → Prop where
  | init (config : ScrobblerConfig) : Reach (Scrobbler.new config)
  | poll_step {s : Scrobbler} (now : Nat) (o : PollOracle) :
      Reach s → Reach (poll s now o).2
  | track_step {s : Scrobbler} (track_id : SpotifyId) (force : Bool) (now : Nat) :
      Reach s → Reach (update_current_track s track_id force now)

/-- The scrobble-slot payload invariant: an in-flight submission always
carries the current metadata, unless a track replacement is pending in the
track-change slot (the submission is then stale). -/
def scrobble_slot_inv (s : Scrobbler) : Prop :=
  ∀ m, s.scrobble_future = some m →
    s.current_track_meta = some m ∨ s.new_track_future = true

theorem can_scrobble_track_spec (s : Scrobbler) (now : Nat) :
    can_scrobble_track s now = true ↔
      s.current_track_scrobbled = false ∧ s.scrobble_future = none ∧
      ∃ t, s.current_track_start = some t ∧ now - t > SCROBBLE_MIN_PLAY_NANOS := by
  unfold can_scrobble_track
  cases hsc : s.current_track_scrobbled <;>
    cases hsl : s.scrobble_future <;>
      cases hst : s.current_track_start <;> simp

theorem can_scrobble_track_of_scrobbled (s : Scrobbler) (now : Nat)
    (h : s.current_track_scrobbled = true) : can_scrobble_track s now = false := by
  unfold can_scrobble_track
  rw [h]
  rfl

theorem can_scrobble_track_of_slot_some (s : Scrobbler) (now : Nat) (m : Scrobble)
    (h : s.scrobble_future = some m) : can_scrobble_track s now = false := by
  unfold can_scrobble_track
  rw [h]
  cases s.current_track_scrobbled <;> rfl

@[simp] theorem poll_now_playing_stage_id (s : Scrobbler) (o : PollOracle) :
    (poll_now_playing_stage s o).2.current_track_id = s.current_track_id := by
  unfold poll_now_playing_stage
  split <;> rfl

@[simp] theorem poll_now_playing_stage_start (s : Scrobbler) (o : PollOracle) :
    (poll_now_playing_stage s o).2.current_track_start = s.current_track_start := by
  unfold poll_now_playing_stage
  split <;> rfl

@[simp] theorem poll_now_playing_stage_slot (s : Scrobbler) (o : PollOracle) :
    (poll_now_playing_stage s o).2.scrobble_future = s.scrobble_future := by
  unfold poll_now_playing_stage
  split <;> rfl

@[simp] theorem poll_now_playing_stage_new (s : Scrobbler) (o : PollOracle) :
    (poll_now_playing_stage s o).2.new_track_future = s.new_track_future := by
  unfold poll_now_playing_stage
  split <;> rfl

@[simp] theorem poll_now_playing_stage_scrobbled (s : Scrobbler) (o : PollOracle) :
    (poll_now_playing_stage s o).2.current_track_scrobbled = s.current_track_scrobbled := by
  unfold poll_now_playing_stage
  split <;> rfl

@[simp] theorem poll_meta_stage_id (s : Scrobbler) (o : PollOracle) :
    (poll_meta_stage s o).2.current_track_id = s.current_track_id := by
  unfold poll_meta_stage
  split <;> simp

@[simp] theorem poll_meta_stage_start (s : Scrobbler) (o : PollOracle) :
    (poll_meta_stage s o).2.current_track_start = s.current_track_start := by
  unfold poll_meta_stage
  split <;> simp

@[simp] theorem poll_meta_stage_slot (s : Scrobbler) (o : PollOracle) :
    (poll_meta_stage s o).2.scrobble_future = s.scrobble_future := by
  unfold poll_meta_stage
  split <;> simp

@[simp] theorem poll_meta_stage_new (s : Scrobbler) (o : PollOracle) :
    (poll_meta_stage s o).2.new_track_future = s.new_track_future := by
  unfold poll_meta_stage
  split <;> simp

@[simp] theorem poll_meta_stage_scrobbled (s : Scrobbler) (o : PollOracle) :
    (poll_meta_stage s o).2.current_track_scrobbled = s.current_track_scrobbled := by
  unfold poll_meta_stage
  split <;> simp

@[simp] theorem poll_new_track_stage_id (s : Scrobbler) (o : PollOracle) :
    (poll_new_track_stage s o).2.current_track_id = s.current_track_id := by
  unfold poll_new_track_stage
  split
  · cases hid : s.current_track_id <;> simp_all
  · simp

@[simp] theorem poll_new_track_stage_start (s : Scrobbler) (o : PollOracle) :
    (poll_new_track_stage s o).2.current_track_start = s.current_track_start := by
  unfold poll_new_track_stage
  split
  · cases hid : s.current_track_id <;> simp_all
  · simp

@[simp] theorem poll_new_track_stage_slot (s : Scrobbler) (o : PollOracle) :
    (poll_new_track_stage s o).2.scrobble_future = s.scrobble_future := by
  unfold poll_new_track_stage
  split
  · cases hid : s.current_track_id <;> simp_all
  · simp

@[simp] theorem poll_new_track_stage_new (s : Scrobbler) (o : PollOracle) :
    (poll_new_track_stage s o).2.new_track_future = false := by
  unfold poll_new_track_stage
  split
  · cases hid : s.current_track_id <;> simp_all
  · simp_all

@[simp] theorem poll_new_track_stage_scrobbled (s : Scrobbler) (o : PollOracle) :
    (poll_new_track_stage s o).2.current_track_scrobbled =
      (if s.new_track_future then false else s.current_track_scrobbled) := by
  unfold poll_new_track_stage
  split
  · cases hid : s.current_track_id <;> simp_all
  · simp_all

/-- Exhaustive description of the eligibility-plus-scrobble block: after
the optional `start_scrobble`, either the slot holds a submission and the
poll outcome decides between early pending return, fatal return, and
completion, or the slot is empty and control falls through to the
new-track block. -/
theorem poll_scrobble_stage_cases (s : Scrobbler) (now : Nat) (o : PollOracle) :
    ∃ s1, s1 = (if can_scrobble_track s now then start_scrobble s else s) ∧
      ((∃ m, s1.scrobble_future = some m ∧
          ((o.scrobble = .notReady ∧ poll_scrobble_stage s now o = (.pending, s1)) ∨
           (∃ e, o.scrobble = .error e ∧ poll_scrobble_stage s now o = (.fatal, s1)) ∨
           (o.scrobble = .ready () ∧ poll_scrobble_stage s now o =
              poll_new_track_stage
                { s1 with scrobble_future := none, current_track_scrobbled := true } o))) ∨
       (s1.scrobble_future = none ∧
          poll_scrobble_stage s now o = poll_new_track_stage s1 o)) := by
  refine ⟨if can_scrobble_track s now then start_scrobble s else s, rfl, ?_⟩
  cases hsl : (if can_scrobble_track s now then start_scrobble s else s).scrobble_future with
  | some m =>
    left
    refine ⟨m, rfl, ?_⟩
    cases hos : o.scrobble with
    | notReady => exact Or.inl ⟨rfl, by simp [poll_scrobble_stage, hsl, hos]⟩
    | error e => exact Or.inr (Or.inl ⟨e, rfl, by simp [poll_scrobble_stage, hsl, hos]⟩)
    | ready a => exact Or.inr (Or.inr ⟨by cases a; rfl, by simp [poll_scrobble_stage, hsl, hos]⟩)
  | none =>
    right
    exact ⟨rfl, by simp [poll_scrobble_stage, hsl]⟩

/-- Exhaustive description of the authentication block: an error returns
`Err` with the state untouched; otherwise the rest of `poll` runs on a
state identical except possibly for a cleared authentication slot. -/
theorem poll_cases (s : Scrobbler) (now : Nat) (o : PollOracle) :
    (∃ e, pollSlot s.auth_future o.auth = .error e ∧ poll s now o = (.fatal, s)) ∨
    (∃ s', poll s now o = poll_scrobble_stage s' now o ∧
       s'.current_track_id = s.current_track_id ∧
       s'.current_track_start = s.current_track_start ∧
       s'.current_track_meta = s.current_track_meta ∧
       s'.current_track_scrobbled = s.current_track_scrobbled ∧
       s'.new_track_future = s.new_track_future ∧
       s'.now_playing_future = s.now_playing_future ∧
       s'.meta_fetch_future = s.meta_fetch_future ∧
       s'.scrobble_future = s.scrobble_future) := by
  unfold poll
  cases h : pollSlot s.auth_future o.auth with
  | error e => exact Or.inl ⟨e, rfl, rfl⟩
  | ready a =>
      exact Or.inr ⟨{ s with auth_future := false }, rfl, rfl, rfl, rfl, rfl, rfl, rfl, rfl, rfl⟩
  | notReady => exact Or.inr ⟨s, rfl, rfl, rfl, rfl, rfl, rfl, rfl, rfl, rfl⟩

theorem start_scrobble_meta (s : Scrobbler) :
    (start_scrobble s).current_track_meta = s.current_track_meta := by
  unfold start_scrobble
  cases h : s.current_track_meta <;> simp

theorem start_scrobble_new (s : Scrobbler) :
    (start_scrobble s).new_track_future = s.new_track_future := by
  unfold start_scrobble
  cases h : s.current_track_meta <;> simp

theorem start_scrobble_scrobbled (s : Scrobbler) :
    (start_scrobble s).current_track_scrobbled = s.current_track_scrobbled := by
  unfold start_scrobble
  cases h : s.current_track_meta <;> simp

theorem start_scrobble_slot (s : Scrobbler) (m : Scrobble)
    (h : (start_scrobble s).scrobble_future = some m) :
    s.current_track_meta = some m := by
  unfold start_scrobble at h
  cases hm : s.current_track_meta with
  | some mm => rw [hm] at h; simp at h; rw [h]
  | none => rw [hm] at h; simp at h

theorem start_scrobble_id (s : Scrobbler) :
    (start_scrobble s).current_track_id = s.current_track_id := by
  unfold start_scrobble
  cases h : s.current_track_meta <;> simp

theorem start_scrobble_start (s : Scrobbler) :
    (start_scrobble s).current_track_start = s.current_track_start := by
  unfold start_scrobble
  cases h : s.current_track_meta <;> simp

/-- The optional `start_scrobble` of the eligibility step touches only the
scrobble slot. -/
theorem eligibility_step_fields (s : Scrobbler) (now : Nat) :
    ((if can_scrobble_track s now then start_scrobble s else s).current_track_meta
        = s.current_track_meta) ∧
    ((if can_scrobble_track s now then start_scrobble s else s).new_track_future
        = s.new_track_future) ∧
    ((if can_scrobble_track s now then start_scrobble s else s).current_track_scrobbled
        = s.current_track_scrobbled) ∧
    ((if can_scrobble_track s now then start_scrobble s else s).current_track_id
        = s.current_track_id) ∧
    ((if can_scrobble_track s now then start_scrobble s else s).current_track_start
        = s.current_track_start) := by
  split
  · exact ⟨start_scrobble_meta s, start_scrobble_new s, start_scrobble_scrobbled s,
      start_scrobble_id s, start_scrobble_start s⟩
  · exact ⟨rfl, rfl, rfl, rfl, rfl⟩

/-- A not-yet-ready scrobble submission makes the whole `poll` block
return `Ok(Async::NotReady)` with the state unchanged (line 225). -/
theorem poll_scrobble_stage_pending (s : Scrobbler) (now : Nat) (o : PollOracle)
    (m : Scrobble) (hsl : s.scrobble_future = some m) (hns : o.scrobble = .notReady) :
    poll_scrobble_stage s now o = (.pending, s) := by
  have hc := can_scrobble_track_of_slot_some s now m hsl
  simp [poll_scrobble_stage, hc, hsl, hns]

/-- With no metadata and an empty scrobble slot, no step of the scrobble
block or anything after it can arm the scrobble slot. -/
theorem poll_scrobble_stage_slot_none (s : Scrobbler) (now : Nat) (o : PollOracle)
    (hm : s.current_track_meta = none) (hs : s.scrobble_future = none) :
    (poll_scrobble_stage s now o).2.scrobble_future = none := by
  have h1 : (if can_scrobble_track s now then start_scrobble s else s).scrobble_future = none := by
    split
    · unfold start_scrobble
      rw [hm]
    · exact hs
  obtain ⟨s1, hs1, hcases⟩ := poll_scrobble_stage_cases s now o
  rw [← hs1] at h1
  rcases hcases with ⟨m, hsl, _⟩ | ⟨hsl, heq⟩
  · rw [h1] at hsl; cases hsl
  · rw [heq, poll_new_track_stage_slot]
    exact h1

/-- If the scrobbled flag flips from false to true across the scrobble
block, then a submission carrying the current metadata completed and no
track replacement was pending. -/
theorem poll_scrobble_stage_scrobbled_true (s : Scrobbler) (now : Nat) (o : PollOracle)
    (hinv : scrobble_slot_inv s)
    (h0 : s.current_track_scrobbled = false)
    (h1 : (poll_scrobble_stage s now o).2.current_track_scrobbled = true) :
    ∃ m, s.current_track_meta = some m ∧
      (∀ m', s.scrobble_future = some m' → m' = m) ∧
      s.new_track_future = false ∧
      o.scrobble = .ready () := by
  obtain ⟨s1, hs1, hcases⟩ := poll_scrobble_stage_cases s now o
  obtain ⟨hf_meta, hf_new, hf_scr, hf_id, hf_start⟩ := eligibility_step_fields s now
  rw [← hs1] at hf_meta hf_new hf_scr hf_id hf_start
  rcases hcases with ⟨m, hsl, ⟨hns, heq⟩ | ⟨e, hoe, heq⟩ | ⟨hor, heq⟩⟩ | ⟨hsl, heq⟩
  · rw [heq] at h1
    rw [hf_scr, h0] at h1
    cases h1
  · rw [heq] at h1
    rw [hf_scr, h0] at h1
    cases h1
  · rw [heq, poll_new_track_stage_scrobbled] at h1
    by_cases hb : s1.new_track_future = true
    · simp [hb] at h1
    · have hnt' : s1.new_track_future = false := by
        cases hv : s1.new_track_future
        · rfl
        · exact absurd hv hb
      have hnew : s.new_track_future = false := by rw [← hf_new]; exact hnt'
      rw [hs1] at hsl
      by_cases hcan : can_scrobble_track s now = true
      · rw [if_pos hcan] at hsl
        have hmeta : s.current_track_meta = some m := start_scrobble_slot s m hsl
        have hslotnone : s.scrobble_future = none :=
          ((can_scrobble_track_spec s now).mp hcan).2.1
        refine ⟨m, hmeta, ?_, hnew, hor⟩
        intro m' hm'
        rw [hslotnone] at hm'
        cases hm'
      · rw [if_neg hcan] at hsl
        rcases hinv m hsl with hmeta | hbad
        · refine ⟨m, hmeta, ?_, hnew, hor⟩
          intro m' hm'
          rw [hsl] at hm'
          exact (Option.some.inj hm').symm
        · rw [hnew] at hbad
          cases hbad
  · rw [heq, poll_new_track_stage_scrobbled] at h1
    by_cases hb : s1.new_track_future = true
    · simp [hb] at h1
    · simp [hb] at h1
      rw [hf_scr, h0] at h1
      cases h1

/-- A stale submission completing while a track replacement is pending:
the scrobbled flag is reset to false by the new-track block of the same
call. -/
theorem poll_scrobble_stage_stale (s : Scrobbler) (now : Nat) (o : PollOracle) (m : Scrobble)
    (hnt : s.new_track_future = true) (hsl : s.scrobble_future = some m)
    (hor : o.scrobble = .ready ()) :
    (poll_scrobble_stage s now o).2.current_track_scrobbled = false := by
  have hc := can_scrobble_track_of_slot_some s now m hsl
  obtain ⟨s1, hs1, hcases⟩ := poll_scrobble_stage_cases s now o
  have hs1s : s1 = s := by rw [hs1, hc]; simp
  rcases hcases with ⟨m', hsl', ⟨hns, heq⟩ | ⟨e, hoe, heq⟩ | ⟨hor', heq⟩⟩ | ⟨hsl', heq⟩
  · rw [hor] at hns; cases hns
  · rw [hor] at hoe; cases hoe
  · rw [heq, poll_new_track_stage_scrobbled]
    simp [hs1s, hnt]
  · rw [hs1s, hsl] at hsl'; cases hsl'

/-- One `poll` call preserves the completed-scrobble configuration:
scrobbled flag set, scrobble slot empty, no pending track replacement. -/
theorem poll_preserves_done (s : Scrobbler) (now : Nat) (o : PollOracle)
    (hsc : s.current_track_scrobbled = true) (hsl : s.scrobble_future = none)
    (hnt : s.new_track_future = false) :
    (poll s now o).2.current_track_scrobbled = true ∧
    (poll s now o).2.scrobble_future = none ∧
    (poll s now o).2.new_track_future = false := by
  rcases poll_cases s now o with ⟨e, he, heq⟩ | ⟨s2, heq, hid, hst, hm, hscr, hnew, hnp, hmf, hslot⟩
  · rw [heq]; exact ⟨hsc, hsl, hnt⟩
  · rw [heq]
    have hc : can_scrobble_track s2 now = false :=
      can_scrobble_track_of_scrobbled s2 now (hscr.trans hsc)
    obtain ⟨s1, hs1, hcases⟩ := poll_scrobble_stage_cases s2 now o
    have hs1s : s1 = s2 := by rw [hs1, hc]; simp
    rcases hcases with ⟨m, hslm, _⟩ | ⟨_, heq2⟩
    · rw [hs1s, hslot, hsl] at hslm; cases hslm
    · rw [heq2, hs1s]
      refine ⟨?_, ?_, ?_⟩
      · rw [poll_new_track_stage_scrobbled, hnew, hnt]
        simp [hscr, hsc]
      · rw [poll_new_track_stage_slot, hslot]
        exact hsl
      · rw [poll_new_track_stage_new]

/-- Any number of `poll` calls preserves the completed-scrobble
configuration. -/
theorem poll_run_preserves_done (steps : List (Nat × PollOracle)) :
    ∀ s : Scrobbler, s.current_track_scrobbled = true → s.scrobble_future = none →
      s.new_track_future = false →
      (poll_run s steps).current_track_scrobbled = true ∧
      (poll_run s steps).scrobble_future = none ∧
      (poll_run s steps).new_track_future = false := by
  induction steps with
  | nil => exact fun s h1 h2 h3 => ⟨h1, h2, h3⟩
  | cons p rest ih =>
    intro s h1 h2 h3
    obtain ⟨now, o⟩ := p
    have h := poll_preserves_done s now o h1 h2 h3
    simpa [poll_run] using ih _ h.1 h.2.1 h.2.2

/-- The scrobble-slot invariant is preserved by the scrobble block and
everything after it in one `poll` call. -/
theorem poll_scrobble_stage_inv (s : Scrobbler) (now : Nat) (o : PollOracle)
    (ih : scrobble_slot_inv s) : scrobble_slot_inv (poll_scrobble_stage s now o).2 := by
  obtain ⟨s1, hs1, hcases⟩ := poll_scrobble_stage_cases s now o
  have hinv1 : scrobble_slot_inv s1 := by
    rw [hs1]
    split
    · intro m hm
      have := start_scrobble_slot s m hm
      rw [start_scrobble_meta]
      exact Or.inl this
    · exact ih
  rcases hcases with ⟨m, hsl, ⟨hns, heq⟩ | ⟨e, hoe, heq⟩ | ⟨hor, heq⟩⟩ | ⟨hsl, heq⟩
  · rw [heq]; exact hinv1
  · rw [heq]; exact hinv1
  · rw [heq]
    intro m' hm'
    rw [poll_new_track_stage_slot] at hm'
    simp at hm'
  · rw [heq]
    intro m' hm'
    rw [poll_new_track_stage_slot, hsl] at hm'
    cases hm'

/-- Lemma: `update_current_track` either returns without effect or replaces the
current track via `set_new_track`, after possibly starting a scrobble. -/
theorem update_current_track_cases (s : Scrobbler) (track_id : SpotifyId)
    (force : Bool) (now : Nat) :
    update_current_track s track_id force now = s ∨
    update_current_track s track_id force now =
      set_new_track (if can_scrobble_track s now then start_scrobble s else s) track_id now := by
  simp only [update_current_track]
  by_cases h : (force || (match s.current_track_id with
      | none => true
      | some id => decide (id ≠ track_id))) = true
  · right; rw [if_pos h]
  · left; rw [if_neg h]

theorem update_current_track_inv (s : Scrobbler) (track_id : SpotifyId)
    (force : Bool) (now : Nat) (ih : scrobble_slot_inv s) :
    scrobble_slot_inv (update_current_track s track_id force now) := by
  rcases update_current_track_cases s track_id force now with h | h
  · rw [h]; exact ih
  · rw [h]; intro m hm; exact Or.inr rfl

theorem poll_inv_step (s : Scrobbler) (now : Nat) (o : PollOracle)
    (ih : scrobble_slot_inv s) : scrobble_slot_inv (poll s now o).2 := by
  rcases poll_cases s now o with ⟨e, he, heq⟩ | ⟨s2, heq, hid, hst, hm, hscr, hnew, hnp, hmf, hslot⟩
  · rw [heq]; exact ih
  · rw [heq]
    refine poll_scrobble_stage_inv s2 now o ?_
    intro m hm2
    rw [hslot] at hm2
    rcases ih m hm2 with hl | hr
    · exact Or.inl (hm.trans hl)
    · exact Or.inr (hnew.trans hr)

theorem start_scrobble_none (s : Scrobbler) (hmeta : s.current_track_meta = none)
    (hslot : s.scrobble_future = none) : start_scrobble s = s := by
  obtain ⟨cfg, id, st, mt, sc, au, nt, np, mf, sf⟩ := s
  simp at hmeta hslot
  subst hmeta
  subst hslot
  rfl

theorem can_scrobble_track_congr (s s2 : Scrobbler) (now : Nat)
    (h1 : s2.current_track_scrobbled = s.current_track_scrobbled)
    (h2 : s2.scrobble_future = s.scrobble_future)
    (h3 : s2.current_track_start = s.current_track_start) :
    can_scrobble_track s2 now = can_scrobble_track s now := by
  unfold can_scrobble_track
  rw [h1, h2, h3]

theorem start_scrobble_some (s : Scrobbler) (m : Scrobble)
    (h : s.current_track_meta = some m) :
    start_scrobble s = { s with scrobble_future := some m } := by
  unfold start_scrobble
  rw [h]

/-- An eligible track with metadata present: the scrobble block arms the
slot with that metadata and (for a not-yet-ready submission) returns
pending. -/
theorem poll_scrobble_stage_starts (s : Scrobbler) (now : Nat) (o : PollOracle) (m : Scrobble)
    (hcan : can_scrobble_track s now = true) (hmeta : s.current_track_meta = some m)
    (hns : o.scrobble = .notReady) :
    poll_scrobble_stage s now o = (.pending, { s with scrobble_future := some m }) := by
  simp [poll_scrobble_stage, hcan, start_scrobble_some s m hmeta, hns]

/-- The current track id survives the scrobble block and everything after
it in one `poll` call. -/
theorem poll_scrobble_stage_id (s : Scrobbler) (now : Nat) (o : PollOracle) :
    (poll_scrobble_stage s now o).2.current_track_id = s.current_track_id := by
  obtain ⟨s1, hs1, hcases⟩ := poll_scrobble_stage_cases s now o
  obtain ⟨hf_meta, hf_new, hf_scr, hf_id, hf_start⟩ := eligibility_step_fields s now
  rw [← hs1] at hf_id
  rcases hcases with ⟨m, hsl, ⟨hns, heq⟩ | ⟨e, hoe, heq⟩ | ⟨hor, heq⟩⟩ | ⟨hsl, heq⟩ <;>
    rw [heq] <;> simp [hf_id]

/-- Lemma: `update_current_track` with the force flag always replaces the track. -/
theorem update_current_track_force (s : Scrobbler) (track_id : SpotifyId) (now : Nat) :
    update_current_track s track_id true now =
      set_new_track (if can_scrobble_track s now then start_scrobble s else s) track_id now := by
  simp [update_current_track]

/-- The scrobble-slot invariant holds in every reachable state. -/
theorem reach_scrobble_slot_inv (s : Scrobbler) (h : Reach s) : scrobble_slot_inv s := by
  induction h with
  | init config =>
      intro m hm
      simp [Scrobbler.new] at hm
  | poll_step now o hr ih =>
      exact poll_inv_step _ now o ih
  | track_step track_id force now hr ih =>
      exact update_current_track_inv _ track_id force now ih

/-! Concrete fixtures used by witnesses and counterexamples. -/

def cfg0 : ScrobblerConfig :=
  { api_key := "key", api_secret := "secret", username := "user", password := "pass" }

def meta0 : Scrobble := { artist := "Band", track := "Song", album := "Record" }

def idleOracle : PollOracle :=
  { auth := .notReady, scrobble := .notReady, meta_fetch := .notReady, now_playing := .notReady }

def emptyArtistsResolver : Resolver :=
  { resolve_track := fun _ => .ok { name := "Song", artists := [], album := 7 }
    resolve_artist := fun _ => .ok { name := "Band" }
    resolve_album := fun _ => .ok { name := "Record" } }

/-- C2, counterexample: a resolver whose track record has an empty artist
list makes `get_track_meta` panic (the `.expect("No artists")` of line
124) instead of completing with a fetch-failure signal, refuting the
claimed MetadataFetchFailure outcome. -/
theorem c2_counterexample :
    (get_track_meta emptyArtistsResolver 1).isFailure = false ∧
    get_track_meta emptyArtistsResolver 1 = .aborted "No artists" :=
  ⟨rfl, rfl⟩

/-- C2 (amended): for every track record returned by the resolver whose
artist list is empty, the metadata-fetch operation panics with the message
"No artists" (aborting the process) rather than completing with a
MetadataFetchFailure; no metadata is produced, and `advance()` never
returns from the call that observes the panic. -/
theorem c2_empty_artists_panics (r : Resolver) (track_id : SpotifyId) (t : TrackRec)
    (h1 : r.resolve_track track_id = .ok t) (h2 : t.artists = []) :
    get_track_meta r track_id = .aborted "No artists" := by
  simp [get_track_meta, h1, h2]

theorem c2_witness :
    get_track_meta emptyArtistsResolver 2 = .aborted "No artists" :=
  c2_empty_artists_panics emptyArtistsResolver 2
    { name := "Song", artists := [], album := 7 } rfl rfl

/-- C7: if the authentication slot reports an error, `poll` returns
`Err` (Fatal) on that very call, before polling or mutating any other
slot: the returned state is the input state, unchanged. -/
theorem c7_auth_error_fatal_unchanged (s : Scrobbler) (now : Nat) (o : PollOracle)
    (e : String) (h : pollSlot s.auth_future o.auth = .error e) :
    poll s now o = (.fatal, s) := by
  unfold poll
  rw [h]

def c7oracle : PollOracle :=
  { auth := .error "bad credentials", scrobble := .notReady,
    meta_fetch := .notReady, now_playing := .notReady }

theorem c7_witness :
    poll (Scrobbler.new cfg0) 0 c7oracle = (.fatal, Scrobbler.new cfg0) :=
  c7_auth_error_fatal_unchanged (Scrobbler.new cfg0) 0 c7oracle "bad credentials" rfl

/-- C8: with a current track and force unset, a track-change event for
the same id is a no-op: the entire tracker state, all five slots
included, is returned unchanged, so repeating the call has the same null
effect. -/
theorem c8_same_track_noop (s : Scrobbler) (track_id : SpotifyId) (now : Nat)
    (h : s.current_track_id = some track_id) :
    update_current_track s track_id false now = s := by
  simp [update_current_track, h]

def c8state : Scrobbler :=
  { config := cfg0, current_track_id := some 5, current_track_start := some 100,
    current_track_meta := some meta0, current_track_scrobbled := false,
    auth_future := false, new_track_future := false, now_playing_future := false,
    meta_fetch_future := none, scrobble_future := none }

theorem c8_witness : update_current_track c8state 5 false 999 = c8state :=
  c8_same_track_noop c8state 5 999 rfl

/-- C10: with no current track, a track-change event with force unset is
always accepted: it installs the new current track with
`started_at = now`, no metadata, scrobbled false, and arms the
track-change slot. -/
theorem c10_first_track_accepted (s : Scrobbler) (track_id : SpotifyId) (now : Nat)
    (h : s.current_track_id = none) :
    (update_current_track s track_id false now).current_track_id = some track_id ∧
    (update_current_track s track_id false now).current_track_start = some now ∧
    (update_current_track s track_id false now).current_track_meta = none ∧
    (update_current_track s track_id false now).current_track_scrobbled = false ∧
    (update_current_track s track_id false now).new_track_future = true := by
  simp [update_current_track, h, set_new_track]

theorem c10_witness :
    (update_current_track (Scrobbler.new cfg0) 42 false 7).current_track_id = some 42 ∧
    (update_current_track (Scrobbler.new cfg0) 42 false 7).current_track_start = some 7 ∧
    (update_current_track (Scrobbler.new cfg0) 42 false 7).current_track_meta = none ∧
    (update_current_track (Scrobbler.new cfg0) 42 false 7).current_track_scrobbled = false ∧
    (update_current_track (Scrobbler.new cfg0) 42 false 7).new_track_future = true :=
  c10_first_track_accepted (Scrobbler.new cfg0) 42 7 rfl

def c1state : Scrobbler :=
  { config := cfg0, current_track_id := some 1, current_track_start := some 0,
    current_track_meta := none, current_track_scrobbled := false,
    auth_future := false, new_track_future := true, now_playing_future := false,
    meta_fetch_future := none, scrobble_future := some meta0 }

/-- C1, counterexample: in a state whose scrobble slot holds a
not-yet-ready submission while the track-change slot is armed (and would
be ready, being `future::ok`), one `poll` call returns with the state
completely unchanged: the track-change slot is not consumed and no
metadata fetch is started, so the later-priority slots were not
progressed in that call. -/
theorem c1_counterexample :
    c1state.scrobble_future = some meta0 ∧
    c1state.new_track_future = true ∧
    poll c1state 0 idleOracle = (.pending, c1state) ∧
    (poll c1state 0 idleOracle).2.new_track_future = true ∧
    (poll c1state 0 idleOracle).2.meta_fetch_future = none :=
  ⟨rfl, rfl, rfl, rfl, rfl⟩

/-- C1 (amended): a still-pending scrobble submission DOES prevent the
later-priority slots from being polled: whenever the scrobble slot holds
a submission whose poll is not ready (and authentication does not fail),
`advance()` returns Pending from the scrobble step (line 225) and the
track-change, metadata-fetch and now-playing slots — and every
current-track field — are left exactly as they were. -/
theorem c1_pending_scrobble_blocks_later_slots (s : Scrobbler) (now : Nat) (o : PollOracle)
    (m : Scrobble) (hsl : s.scrobble_future = some m) (hns : o.scrobble = .notReady)
    (hauth : ∀ e, pollSlot s.auth_future o.auth ≠ .error e) :
    (poll s now o).1 = .pending ∧
    (poll s now o).2.scrobble_future = some m ∧
    (poll s now o).2.new_track_future = s.new_track_future ∧
    (poll s now o).2.meta_fetch_future = s.meta_fetch_future ∧
    (poll s now o).2.now_playing_future = s.now_playing_future ∧
    (poll s now o).2.current_track_meta = s.current_track_meta ∧
    (poll s now o).2.current_track_scrobbled = s.current_track_scrobbled ∧
    (poll s now o).2.current_track_id = s.current_track_id ∧
    (poll s now o).2.current_track_start = s.current_track_start := by
  rcases poll_cases s now o with ⟨e, he, heq⟩ | ⟨s2, heq, hid, hst, hm, hscr, hnew, hnp, hmf, hslot⟩
  · exact absurd he (hauth e)
  · rw [heq, poll_scrobble_stage_pending s2 now o m (hslot.trans hsl) hns]
    exact ⟨rfl, hslot.trans hsl, hnew, hmf, hnp, hm, hscr, hid, hst⟩

theorem c1_witness :
    (poll c1state 5 idleOracle).1 = .pending ∧
    (poll c1state 5 idleOracle).2.scrobble_future = some meta0 ∧
    (poll c1state 5 idleOracle).2.new_track_future = c1state.new_track_future ∧
    (poll c1state 5 idleOracle).2.meta_fetch_future = c1state.meta_fetch_future ∧
    (poll c1state 5 idleOracle).2.now_playing_future = c1state.now_playing_future ∧
    (poll c1state 5 idleOracle).2.current_track_meta = c1state.current_track_meta ∧
    (poll c1state 5 idleOracle).2.current_track_scrobbled = c1state.current_track_scrobbled ∧
    (poll c1state 5 idleOracle).2.current_track_id = c1state.current_track_id ∧
    (poll c1state 5 idleOracle).2.current_track_start = c1state.current_track_start :=
  c1_pending_scrobble_blocks_later_slots c1state 5 idleOracle meta0 rfl rfl
    (fun e h => by simp [pollSlot, c1state, idleOracle] at h)

def c3state : Scrobbler :=
  { config := cfg0, current_track_id := some 1, current_track_start := some 0,
    current_track_meta := some meta0, current_track_scrobbled := false,
    auth_future := false, new_track_future := false, now_playing_future := false,
    meta_fetch_future := none, scrobble_future := none }

/-- C3, counterexample: a current track whose elapsed play time is
exactly 20 seconds satisfies the claimed conditions — not scrobbled, no
in-flight submission, at least 20 seconds elapsed since `started_at` —
yet `can_scrobble_track` refuses it, because line 182 requires strictly
more than 20 seconds. -/
theorem c3_counterexample :
    c3state.current_track_scrobbled = false ∧
    c3state.scrobble_future = none ∧
    c3state.current_track_start = some 0 ∧
    20000000000 - 0 ≥ SCROBBLE_MIN_PLAY_NANOS ∧
    can_scrobble_track c3state 20000000000 = false := by
  refine ⟨rfl, rfl, rfl, ?_, rfl⟩
  decide

/-- C3 (amended): for every tracker state with a current track (a
`started_at` value `t`), the track qualifies for scrobbling if and only
if (a) its scrobbled flag is false, (b) the scrobble slot holds no
in-flight submission, and (c) STRICTLY MORE than 20 seconds of wall-clock
time have elapsed since `started_at`; the 19-second instance is never
eligible and the 21-second instance is eligible when (a) and (b) hold,
but at exactly 20 seconds the track is not yet eligible. -/
theorem c3_eligibility_iff (s : Scrobbler) (now : Nat) (t : Nat)
    (h : s.current_track_start = some t) :
    can_scrobble_track s now = true ↔
      (s.current_track_scrobbled = false ∧ s.scrobble_future = none ∧
       now - t > SCROBBLE_MIN_PLAY_NANOS) := by
  rw [can_scrobble_track_spec, h]
  simp

theorem c3_witness :
    can_scrobble_track c3state 21000000000 = true ↔
      (c3state.current_track_scrobbled = false ∧ c3state.scrobble_future = none ∧
       21000000000 - 0 > SCROBBLE_MIN_PLAY_NANOS) :=
  c3_eligibility_iff c3state 21000000000 0 rfl

def c4state : Scrobbler :=
  { config := cfg0, current_track_id := some 1, current_track_start := some 0,
    current_track_meta := none, current_track_scrobbled := false,
    auth_future := false, new_track_future := false, now_playing_future := false,
    meta_fetch_future := none, scrobble_future := none }

/-- C4, counterexample: a current track that is eligible per the
eligibility rule (not scrobbled, idle scrobble slot, over 20 seconds of
play) but whose metadata has not been fetched: neither `poll` nor a
forced track change starts any scrobble submission — `start_scrobble`
silently leaves the slot idle. -/
theorem c4_counterexample :
    can_scrobble_track c4state 21000000000 = true ∧
    c4state.scrobble_future = none ∧
    c4state.current_track_meta = none ∧
    (poll c4state 21000000000 idleOracle).2.scrobble_future = none ∧
    (update_current_track c4state 2 true 21000000000).scrobble_future = none := by
  refine ⟨?_, rfl, rfl, rfl, rfl⟩
  decide

/-- C4 (amended): whenever the current track is eligible per the
eligibility rule AND its metadata has been fetched, a scrobble
submission carrying that metadata is started: proactively on every
`advance()` call (shown here with the submission still in flight at the
end of the call), and reactively on an accepted
`on_track_changed(B, force=true)`, where the submission for the outgoing
eligible track A is started before A is replaced by B — the resulting
state holds the submission built from the metadata of A while B is
already the current track.  When the metadata is absent the start is
silently skipped (claim C9). -/
theorem c4_scrobble_started_when_meta_present (s : Scrobbler) (now : Nat) (o : PollOracle)
    (m : Scrobble) (track_id : SpotifyId)
    (hcan : can_scrobble_track s now = true)
    (hmeta : s.current_track_meta = some m)
    (hauth : ∀ e, pollSlot s.auth_future o.auth ≠ .error e)
    (hns : o.scrobble = .notReady) :
    ((poll s now o).1 = .pending ∧ (poll s now o).2.scrobble_future = some m) ∧
    ((update_current_track s track_id true now).scrobble_future = some m ∧
     (update_current_track s track_id true now).current_track_id = some track_id ∧
     (update_current_track s track_id true now).current_track_start = some now ∧
     (update_current_track s track_id true now).current_track_meta = none ∧
     (update_current_track s track_id true now).current_track_scrobbled = false ∧
     (update_current_track s track_id true now).new_track_future = true) := by
  constructor
  · rcases poll_cases s now o with ⟨e, he, heq⟩ | ⟨s2, heq, hid, hst, hm2, hscr, hnew2, hnp, hmf, hslot⟩
    · exact absurd he (hauth e)
    · have hcan2 : can_scrobble_track s2 now = true := by
        rw [can_scrobble_track_congr s s2 now hscr hslot hst]
        exact hcan
      rw [heq, poll_scrobble_stage_starts s2 now o m hcan2 (hm2.trans hmeta) hns]
      exact ⟨rfl, rfl⟩
  · rw [update_current_track_force, if_pos hcan, start_scrobble_some s m hmeta]
    exact ⟨rfl, rfl, rfl, rfl, rfl, rfl⟩

def c4wstate : Scrobbler :=
  { config := cfg0, current_track_id := some 1, current_track_start := some 0,
    current_track_meta := some meta0, current_track_scrobbled := false,
    auth_future := false, new_track_future := false, now_playing_future := false,
    meta_fetch_future := none, scrobble_future := none }

theorem c4_witness :
    ((poll c4wstate 21000000000 idleOracle).1 = .pending ∧
     (poll c4wstate 21000000000 idleOracle).2.scrobble_future = some meta0) ∧
    ((update_current_track c4wstate 2 true 21000000000).scrobble_future = some meta0 ∧
     (update_current_track c4wstate 2 true 21000000000).current_track_id = some 2 ∧
     (update_current_track c4wstate 2 true 21000000000).current_track_start =
        some 21000000000 ∧
     (update_current_track c4wstate 2 true 21000000000).current_track_meta = none ∧
     (update_current_track c4wstate 2 true 21000000000).current_track_scrobbled = false ∧
     (update_current_track c4wstate 2 true 21000000000).new_track_future = true) :=
  c4_scrobble_started_when_meta_present c4wstate 21000000000 idleOracle meta0 2
    (by decide) rfl (fun e h => by simp [pollSlot, c4wstate, idleOracle] at h) rfl

def c9state : Scrobbler :=
  { config := cfg0, current_track_id := some 3, current_track_start := some 0,
    current_track_meta := none, current_track_scrobbled := false,
    auth_future := false, new_track_future := false, now_playing_future := false,
    meta_fetch_future := none, scrobble_future := none }

/-- C9: when a scrobble start is attempted while the current track has no
metadata — the slot being idle, as it is at every call site of
`start_scrobble` — no submission is started and no error is raised:
`start_scrobble` returns the state unchanged, and neither a full `poll`
call nor any `on_track_changed` call can leave the scrobble slot armed
from such a state. -/
theorem c9_no_meta_skips_scrobble (s : Scrobbler) (now : Nat) (o : PollOracle)
    (track_id : SpotifyId) (force : Bool)
    (hmeta : s.current_track_meta = none) (hslot : s.scrobble_future = none) :
    start_scrobble s = s ∧
    (poll s now o).2.scrobble_future = none ∧
    (update_current_track s track_id force now).scrobble_future = none := by
  have hss : start_scrobble s = s := start_scrobble_none s hmeta hslot
  refine ⟨hss, ?_, ?_⟩
  · rcases poll_cases s now o with ⟨e, he, heq⟩ | ⟨s2, heq, hid, hst, hm2, hscr, hnew2, hnp, hmf, hslot2⟩
    · rw [heq]; exact hslot
    · rw [heq]
      exact poll_scrobble_stage_slot_none s2 now o (hm2.trans hmeta) (hslot2.trans hslot)
  · rcases update_current_track_cases s track_id force now with h | h
    · rw [h]; exact hslot
    · rw [h]
      show (if can_scrobble_track s now then start_scrobble s else s).scrobble_future = none
      split
      · rw [hss]; exact hslot
      · exact hslot

theorem c9_witness :
    start_scrobble c9state = c9state ∧
    (poll c9state 30000000000 idleOracle).2.scrobble_future = none ∧
    (update_current_track c9state 8 true 30000000000).scrobble_future = none :=
  c9_no_meta_skips_scrobble c9state 30000000000 idleOracle 8 true rfl rfl

/-- C5: invariant on states observable between calls.  Part one: from any
reachable state, if one `poll` call flips the scrobbled flag from false
to true, then the submission that completed carried exactly the metadata
stored in the current track (so metadata was set), no track replacement
was pending, and the current track id is unchanged by the call — the flag
is set only for the track that was current when the submission completed.
Part two: a track-change event accepted while a submission is in flight
(armed track-change slot next to an in-flight submission) never leaves
the replacement track marked scrobbled after the `poll` call in which
that submission completes successfully. -/
theorem c5_scrobbled_invariant (s : Scrobbler) (now : Nat) (o : PollOracle)
    (hreach : Reach s) :
    (s.current_track_scrobbled = false →
      (poll s now o).2.current_track_scrobbled = true →
      ∃ m, s.current_track_meta = some m ∧
        (∀ m', s.scrobble_future = some m' → m' = m) ∧
        s.new_track_future = false ∧
        (poll s now o).2.current_track_id = s.current_track_id) ∧
    (s.new_track_future = true → s.scrobble_future.isSome = true →
      o.scrobble = .ready () → (∀ e, pollSlot s.auth_future o.auth ≠ .error e) →
      (poll s now o).2.current_track_scrobbled = false) := by
  have hinv := reach_scrobble_slot_inv s hreach
  constructor
  · intro h0 h1
    rcases poll_cases s now o with ⟨e, he, heq⟩ | ⟨s2, heq, hid, hst, hm, hscr, hnew, hnp, hmf, hslot⟩
    · rw [heq] at h1
      simp [h0] at h1
    · rw [heq] at h1
      have hinv2 : scrobble_slot_inv s2 := by
        intro mm hmm
        rw [hslot] at hmm
        rcases hinv mm hmm with hl | hr
        · exact Or.inl (hm.trans hl)
        · exact Or.inr (hnew.trans hr)
      have h02 : s2.current_track_scrobbled = false := hscr.trans h0
      obtain ⟨m, hmeta2, huniq2, hnew2, hor⟩ :=
        poll_scrobble_stage_scrobbled_true s2 now o hinv2 h02 h1
      refine ⟨m, hm.symm.trans hmeta2, ?_, hnew.symm.trans hnew2, ?_⟩
      · intro m' hm'
        exact huniq2 m' (hslot.trans hm')
      · rw [heq, poll_scrobble_stage_id]
        exact hid
  · intro hnt hsl hor hauth
    rcases poll_cases s now o with ⟨e, he, heq⟩ | ⟨s2, heq, hid, hst, hm, hscr, hnew, hnp, hmf, hslot⟩
    · exact absurd he (hauth e)
    · rw [heq]
      obtain ⟨m, hm'⟩ := Option.isSome_iff_exists.mp hsl
      exact poll_scrobble_stage_stale s2 now o m (hnew.trans hnt) (hslot.trans hm') hor

def c5oracleAuth : PollOracle :=
  { auth := .ready (), scrobble := .notReady, meta_fetch := .notReady, now_playing := .notReady }

def c5oracleFetch : PollOracle :=
  { auth := .notReady, scrobble := .notReady, meta_fetch := .ready meta0,
    now_playing := .ready () }

def c5oracleReady : PollOracle :=
  { auth := .notReady, scrobble := .ready (), meta_fetch := .notReady,
    now_playing := .notReady }

/-- A reachable state with an in-flight scrobble submission for the
current track: construct, let authentication succeed, accept track 1,
let one tick run the track-change, metadata-fetch and now-playing slots
to completion, then at 21 seconds of play start a scrobble whose first
poll is not ready. -/
def c5stateA : Scrobbler :=
  (poll
    ((poll (update_current_track (poll (Scrobbler.new cfg0) 0 c5oracleAuth).2 1 false 0)
        0 c5oracleFetch).2)
    21000000001 idleOracle).2

/-- A track-change event accepted while the submission of `c5stateA` is
still in flight: track 2 replaces track 1, the stale submission stays in
the scrobble slot and the track-change slot is armed. -/
def c5stateB : Scrobbler := update_current_track c5stateA 2 true 21000000001

theorem c5stateA_reach : Reach c5stateA :=
  Reach.poll_step 21000000001 idleOracle
    (Reach.poll_step 0 c5oracleFetch
      (Reach.track_step 1 false 0
        (Reach.poll_step 0 c5oracleAuth (Reach.init cfg0))))

theorem c5stateB_reach : Reach c5stateB :=
  Reach.track_step 2 true 21000000001 c5stateA_reach

theorem c5_witness :
    (c5stateA.current_track_scrobbled = false ∧
     (poll c5stateA 22000000000 c5oracleReady).2.current_track_scrobbled = true ∧
     ∃ m, c5stateA.current_track_meta = some m ∧
       (∀ m', c5stateA.scrobble_future = some m' → m' = m) ∧
       c5stateA.new_track_future = false ∧
       (poll c5stateA 22000000000 c5oracleReady).2.current_track_id =
         c5stateA.current_track_id) ∧
    (c5stateB.new_track_future = true ∧
     c5stateB.scrobble_future.isSome = true ∧
     c5oracleReady.scrobble = .ready () ∧
     (poll c5stateB 22000000000 c5oracleReady).2.current_track_scrobbled = false) := by
  have hauth : pollSlot c5stateB.auth_future c5oracleReady.auth = PollRes.notReady := rfl
  refine ⟨⟨rfl, rfl, ?_⟩, rfl, rfl, rfl, ?_⟩
  · exact (c5_scrobbled_invariant c5stateA 22000000000 c5oracleReady c5stateA_reach).1 rfl rfl
  · exact (c5_scrobbled_invariant c5stateB 22000000000 c5oracleReady c5stateB_reach).2 rfl rfl rfl
      (fun e h => by rw [hauth] at h; cases h)

/-- C6: once a scrobble submission for the current track has completed
successfully — scrobbled flag true, scrobble slot cleared, and no track
replacement pending (the track is still the current one) — no run of
subsequent `poll` calls, of any length and under any oracle outcomes,
ever starts another scrobble submission for that track: the scrobble
slot stays empty, the flag stays true, and the eligibility check keeps
failing at every reached state. -/
theorem c6_no_double_scrobble (s : Scrobbler) (steps : List (Nat × PollOracle))
    (hsc : s.current_track_scrobbled = true) (hsl : s.scrobble_future = none)
    (hnt : s.new_track_future = false) :
    (poll_run s steps).current_track_scrobbled = true ∧
    (poll_run s steps).scrobble_future = none ∧
    (poll_run s steps).new_track_future = false ∧
    ∀ now, can_scrobble_track (poll_run s steps) now = false := by
  obtain ⟨h1, h2, h3⟩ := poll_run_preserves_done steps s hsc hsl hnt
  exact ⟨h1, h2, h3, fun now => can_scrobble_track_of_scrobbled _ now h1⟩

def c6state : Scrobbler :=
  { config := cfg0, current_track_id := some 1, current_track_start := some 0,
    current_track_meta := some meta0, current_track_scrobbled := true,
    auth_future := false, new_track_future := false, now_playing_future := false,
    meta_fetch_future := none, scrobble_future := none }

theorem c6_witness :
    (poll_run c6state [(25000000000, idleOracle), (30000000000, idleOracle)]).current_track_scrobbled = true ∧
    (poll_run c6state [(25000000000, idleOracle), (30000000000, idleOracle)]).scrobble_future = none ∧
    (poll_run c6state [(25000000000, idleOracle), (30000000000, idleOracle)]).new_track_future = false ∧
    ∀ now, can_scrobble_track
      (poll_run c6state [(25000000000, idleOracle), (30000000000, idleOracle)]) now = false :=
  c6_no_double_scrobble c6state [(25000000000, idleOracle), (30000000000, idleOracle)]
    rfl rfl rfl

end SpotifyScrobbler
